import Mathlib

/-!
Verification of the branch-narrator-action run-orchestration core.

This file gives a shallow embedding of the TypeScript sources
(src/main.ts, src/runner.ts, src/types.ts, src/github.ts, src/render.ts)
and proves the specified properties about them.  Pure functions become
Lean functions, the GitHub comment API and the artifact store become
explicit state passing, fallible operations return Except or Option,
and the orchestration sequence of the main entry point is embedded as
an event trace.
-/

/- ===================== String containment helper =====================
   Models the JavaScript String.prototype.includes used by the comment
   marker scan in github.ts (findExistingComment). -/

structure DeltaFinding where
  findingId : String
deriving DecidableEq

structure CommitRange where
  base : String
  head : String
deriving DecidableEq

structure DeltaSnapshot where
  range : CommitRange
  findings : List DeltaFinding

structure DeltaResult where
  newFindingIds : Finset String
  resolvedFindingIds : Finset String
  unchangedFindingIds : Finset String
  scopeMatch : Bool
  scopeWarning : Option String

/-- The set of identity keys of a snapshot. -/
def snapshotKeys (s : DeltaSnapshot) : Finset String :=
  (s.findings.map DeltaFinding.findingId).toFinset

def scopeWarningMsg : String :=
  "Baseline range does not match the current range; delta may compare unrelated change sets."

/-- Modelled from the spec: DeltaComparator.compare is described in the
spec but its implementation is not under src/ (src/ only declares the
DeltaInfo shape in types.ts and consumes the result in main.ts).
Algorithm per the spec: newFindingIds = current minus baseline,
resolvedFindingIds = baseline minus current, unchangedFindingIds =
baseline intersected with current; scopeMatch compares the recorded
range bases and, when they differ, a descriptive warning is attached
while the delta is still computed. -/
def DeltaComparator.compare (baseline current : DeltaSnapshot) : DeltaResult :=
  let bk := snapshotKeys baseline
  let ck := snapshotKeys current
  let sm := baseline.range.base == current.range.base
  { newFindingIds := ck \ bk
    resolvedFindingIds := bk \ ck
    unchangedFindingIds := bk ∩ ck
    scopeMatch := sm
    scopeWarning := if sm then none else some scopeWarningMsg }

/- ===================== OutputTruncator =====================
   The truncation flags are declared in src/types.ts (ActionOutputs:
   facts, riskReport, factsTruncated, riskReportTruncated) but the
   bounding operation itself is not under src/. -/

structure TruncatedOutput where
  value : List UInt8
  truncated : Bool
deriving DecidableEq

/-- Modelled from the spec: OutputTruncator.bound is described in the
spec but its implementation is not under src/ (src/ only declares the
truncation-flag outputs in types.ts).  Per the spec: if the byte length
of the value exceeds the limit, return a prefix of exactly limit bytes
with the truncation flag set; otherwise return the value unchanged with
the flag clear. -/
def OutputTruncator.bound (value : List UInt8) (limit : Nat) : TruncatedOutput :=
  if value.length ≤ limit then { value := value, truncated := false }
  else { value := value.take limit, truncated := true }

/- ===================== VersionResolver =====================
   src/runner.ts resolveVersion: wraps an npm registry lookup in
   try/catch; on success returns stdout.trim(), on any failure returns
   the requested specifier unchanged.  The lookup outcome is passed in
   as an Except value. -/

def resolveVersion (lookup : Except String String) (requestedVersion : String) : String :=
  match lookup with
  | Except.ok stdout => stdout.trim
  | Except.error _ => requestedVersion

/- ===================== AnalysisRunner =====================
   src/runner.ts: options record, command construction for the four
   subprocesses, and the concurrent fan-out with fail-fast join.
   The exclude/include glob inputs are called excludeGlobs/includeGlobs
   here because the second is a Lean keyword. -/

structure RunnerOptions where
  version : String
  baseSha : String
  headSha : String
  profile : String
  redact : Bool
  sarifUpload : Bool
  sarifFile : String
  baselinePath : Option String
  sinceStrict : Bool
  excludeGlobs : List String
  includeGlobs : List String
  riskOnlyCategories : List String
  riskExcludeCategories : List String
  maxFileBytes : Option Nat
  maxDiffBytes : Option Nat
  maxFindings : Option Nat
  explainScore : Bool
  maxEvidenceLines : Nat

def npxCmd (version : String) : String :=
  "npx -y @better-vibe/branch-narrator@" ++ version

/-- One optional numeric flag: push the flag when the option is set
(the if-defined push pattern of src/runner.ts). -/
def optArg (flag : Nat → String) : Option Nat → List String
  | some n => [flag n]
  | none => []

/-- Command pieces built by runFacts in src/runner.ts. -/
def factsArgs (o : RunnerOptions) : List String :=
  [npxCmd o.version, "facts", "--mode branch",
    "--base " ++ o.baseSha, "--head " ++ o.headSha,
    "--profile " ++ o.profile, "--no-timestamp"]
  ++ (if o.redact then ["--redact"] else [])
  ++ (match o.baselinePath with
      | some p =>
        ["--since \"" ++ p ++ "\""] ++ (if o.sinceStrict then ["--since-strict"] else [])
      | none => [])
  ++ o.excludeGlobs.map (fun pat => "--exclude \"" ++ pat ++ "\"")
  ++ o.includeGlobs.map (fun pat => "--include \"" ++ pat ++ "\"")
  ++ optArg (fun n => "--max-file-bytes " ++ toString n) o.maxFileBytes
  ++ optArg (fun n => "--max-diff-bytes " ++ toString n) o.maxDiffBytes
  ++ optArg (fun n => "--max-findings " ++ toString n) o.maxFindings

/-- Command pieces built by runRiskReport in src/runner.ts.  Note: no
file include/exclude globs and no size limits are passed; the category
filters reuse the --only and --exclude flags with category lists. -/
def riskReportArgs (o : RunnerOptions) : List String :=
  [npxCmd o.version, "risk-report", "--mode branch",
    "--base " ++ o.baseSha, "--head " ++ o.headSha,
    "--format json", "--no-timestamp"]
  ++ (if o.redact then ["--redact"] else [])
  ++ (match o.baselinePath with
      | some p =>
        ["--since \"" ++ p.replace ("facts.json") ("risk-report.json") ++ "\""]
          ++ (if o.sinceStrict then ["--since-strict"] else [])
      | none => [])
  ++ (if o.riskOnlyCategories.isEmpty then []
      else ["--only " ++ String.intercalate (",") o.riskOnlyCategories])
  ++ (if o.riskExcludeCategories.isEmpty then []
      else ["--exclude " ++ String.intercalate (",") o.riskExcludeCategories])
  ++ (if o.explainScore then ["--explain-score"] else [])
  ++ ["--max-evidence-lines " ++ toString o.maxEvidenceLines]

/-- Command pieces built by runFactsSarif in src/runner.ts. -/
def sarifArgs (o : RunnerOptions) : List String :=
  [npxCmd o.version, "facts", "--mode branch",
    "--base " ++ o.baseSha, "--head " ++ o.headSha,
    "--profile " ++ o.profile, "--format sarif",
    "--out \"" ++ o.sarifFile ++ "\"", "--no-timestamp"]
  ++ (if o.redact then ["--redact"] else [])
  ++ o.excludeGlobs.map (fun pat => "--exclude \"" ++ pat ++ "\"")
  ++ o.includeGlobs.map (fun pat => "--include \"" ++ pat ++ "\"")
  ++ optArg (fun n => "--max-file-bytes " ++ toString n) o.maxFileBytes
  ++ optArg (fun n => "--max-diff-bytes " ++ toString n) o.maxDiffBytes
  ++ optArg (fun n => "--max-findings " ++ toString n) o.maxFindings

/-- Command pieces built by runPrBody in src/runner.ts.  Note: no redact
flag is passed. -/
def prBodyArgs (o : RunnerOptions) : List String :=
  [npxCmd o.version, "pr-body", "--mode branch",
    "--base " ++ o.baseSha, "--head " ++ o.headSha,
    "--profile " ++ o.profile]
  ++ o.excludeGlobs.map (fun pat => "--exclude \"" ++ pat ++ "\"")
  ++ o.includeGlobs.map (fun pat => "--include \"" ++ pat ++ "\"")
  ++ optArg (fun n => "--max-file-bytes " ++ toString n) o.maxFileBytes
  ++ optArg (fun n => "--max-diff-bytes " ++ toString n) o.maxDiffBytes
  ++ optArg (fun n => "--max-findings " ++ toString n) o.maxFindings

/-- Outcome of one spawned subprocess: its exit code and stdout. -/
structure ExecOutcome where
  exitCode : Nat
  stdout : String

/-- The external world the runner interacts with: the npm registry
lookup, the four subprocess outcomes, and the JSON parsers (JSON.parse
is an external library call, modelled as partial parse functions). -/
structure RunnerEnv (F R : Type) where
  versionLookup : Except String String
  factsExec : ExecOutcome
  riskExec : ExecOutcome
  prBodyExec : ExecOutcome
  sarifExec : ExecOutcome
  parseFacts : String → Option F
  parseRiskReport : String → Option R

inductive RunError where
  | commandFailed (exitCode : Nat)
  | factsParseFailed
  | riskReportParseFailed
deriving DecidableEq

/-- runCommand in src/runner.ts: a non-zero exit rethrows the exec
error; otherwise stdout is returned. -/
def runCommand (p : ExecOutcome) : Except RunError String :=
  if p.exitCode = 0 then Except.ok p.stdout
  else Except.error (RunError.commandFailed p.exitCode)

/-- runFacts in src/runner.ts: run the command, then JSON.parse the
stdout; a parse failure throws. -/
def runFacts {F R : Type} (env : RunnerEnv F R) : Except RunError F :=
  match runCommand env.factsExec with
  | Except.error e => Except.error e
  | Except.ok out =>
    match env.parseFacts out with
    | some facts => Except.ok facts
    | none => Except.error RunError.factsParseFailed

/-- runRiskReport in src/runner.ts. -/
def runRiskReport {F R : Type} (env : RunnerEnv F R) : Except RunError R :=
  match runCommand env.riskExec with
  | Except.error e => Except.error e
  | Except.ok out =>
    match env.parseRiskReport out with
    | some report => Except.ok report
    | none => Except.error RunError.riskReportParseFailed

/-- runPrBody in src/runner.ts: stdout is returned as-is. -/
def runPrBody {F R : Type} (env : RunnerEnv F R) : Except RunError String :=
  runCommand env.prBodyExec

/-- runFactsSarif in src/runner.ts: stdout is discarded and the SARIF
file path is returned. -/
def runFactsSarif {F R : Type} (o : RunnerOptions) (env : RunnerEnv F R) :
    Except RunError String :=
  match runCommand env.sarifExec with
  | Except.error e => Except.error e
  | Except.ok _ => Except.ok o.sarifFile

structure RunResult (F R : Type) where
  facts : F
  riskReport : R
  prBodyMarkdown : String
  sarifPath : Option String
  resolvedVersion : String

/-- runBranchNarrator in src/runner.ts: resolve the version, then join
the concurrently launched subprocesses with Promise.all semantics — the
whole operation fails if any one task fails (the deterministic
embedding reports the first failure in list order), and succeeds only
when all tasks succeeded. -/
def runBranchNarrator {F R : Type} (o : RunnerOptions) (env : RunnerEnv F R) :
    Except RunError (RunResult F R) :=
  let resolvedVersion := resolveVersion env.versionLookup o.version
  match runFacts env with
  | Except.error e => Except.error e
  | Except.ok facts =>
    match runRiskReport env with
    | Except.error e => Except.error e
    | Except.ok riskReport =>
      match runPrBody env with
      | Except.error e => Except.error e
      | Except.ok prBodyMarkdown =>
        if o.sarifUpload then
          match runFactsSarif o env with
          | Except.error e => Except.error e
          | Except.ok sarifPath =>
            Except.ok
              { facts := facts, riskReport := riskReport,
                prBodyMarkdown := prBodyMarkdown,
                sarifPath := some sarifPath,
                resolvedVersion := resolvedVersion }
        else
          Except.ok
            { facts := facts, riskReport := riskReport,
              prBodyMarkdown := prBodyMarkdown,
              sarifPath := none,
              resolvedVersion := resolvedVersion }

def exceptOk {ε α : Type} : Except ε α → Bool
  | Except.ok _ => true
  | Except.error _ => false

/-- Concrete options used to exercise the command builders. -/
def c4Opts : RunnerOptions :=
  { version := "1.0.0"
    baseSha := "b0"
    headSha := "h0"
    profile := "auto"
    redact := true
    sarifUpload := true
    sarifFile := "out.sarif"
    baselinePath := none
    sinceStrict := false
    excludeGlobs := ["dist"]
    includeGlobs := ["src"]
    riskOnlyCategories := []
    riskExcludeCategories := []
    maxFileBytes := some 7
    maxDiffBytes := some 8
    maxFindings := some 9
    explainScore := false
    maxEvidenceLines := 5 }

/- ===================== ReportPublisher comment upsert =====================
   src/render.ts COMMENT_MARKER and src/github.ts findExistingComment,
   createOrUpdateComment, shouldPostComment.  The PR comment list is the
   explicit state; the GitHub comment API becomes state passing.  Two
   failure inputs model the caught API errors: listOk is whether the
   listComments call inside findExistingComment succeeds (its catch
   returns null, after which the caller takes the create branch), and
   writeOk is whether the mutating create/update call succeeds (the
   outer catch returns false with the comment list untouched). -/

/-- shouldPostComment in src/github.ts. -/
def shouldPostComment (isFork commentEnabled : Bool) : Bool :=
  if !commentEnabled then false
  else if isFork then false
  else true

structure ArtifactEnv where
  available : List String
  listOk : Bool
  downloadOk : String → Bool
  filesOk : Bool

structure DownloadBaselineResult where
  factsPath : String
  riskReportPath : String
deriving DecidableEq

def baselineFactsPath : String := "facts/facts.json"

def baselineRiskPath : String := "risk/risk-report.json"

/-- downloadBaselineArtifact in src/github.ts: list artifacts; if either
of the two named artifacts is absent, return null; download both and
verify both files; any thrown failure is caught, logged, and mapped to
null. -/
def downloadBaselineArtifact (env : ArtifactEnv) (baselineArtifactName : String) :
    Option DownloadBaselineResult :=
  if env.listOk = false then none
  else if (baselineArtifactName ++ "-facts") ∈ env.available ∧
      (baselineArtifactName ++ "-risk-report") ∈ env.available then
    if env.downloadOk (baselineArtifactName ++ "-facts") = false then none
    else if env.downloadOk (baselineArtifactName ++ "-risk-report") = false then none
    else if env.filesOk = false then none
    else some { factsPath := baselineFactsPath, riskReportPath := baselineRiskPath }
  else none

/-- The baseline wiring in src/main.ts run(): when a baseline artifact
name is configured, a null fetch result simply leaves the baseline path
unset; the run continues either way. -/
def resolveBaselinePath (baselineArtifact : Option String) (env : ArtifactEnv) :
    Option String :=
  match baselineArtifact with
  | none => none
  | some name =>
    match downloadBaselineArtifact env name with
    | some r => some r.factsPath
    | none => none

def c8Name : String := "base"

def c8Env : ArtifactEnv :=
  { available := ["base-risk-report"]
    listOk := true
    downloadOk := fun _ => true
    filesOk := true }

/- ===================== Main orchestration =====================
   src/main.ts run() and src/github.ts getPRContext: range selection,
   the score gate, and the reporting sequence embedded as an event
   trace. -/

structure PRCtx where
  owner : String
  repo : String
  prNumber : Nat
  baseSha : String
  headSha : String
  isFork : Bool
deriving DecidableEq

structure PRPayload where
  number : Nat
  baseSha : String
  headSha : String
  headRepoIsFork : Bool
deriving DecidableEq

def pullRequestEvent : String := "pull_request"

/-- getPRContext in src/github.ts: null unless the event is
pull_request with a pull_request payload. -/
def getPRContext (eventName : String) (payload : Option PRPayload)
    (owner repo : String) : Option PRCtx :=
  if eventName ≠ pullRequestEvent then none
  else
    match payload with
    | none => none
    | some pr =>
      some { owner := owner, repo := repo, prNumber := pr.number,
             baseSha := pr.baseSha, headSha := pr.headSha,
             isFork := pr.headRepoIsFork }

def rangeErrorMsg : String :=
  "Could not determine PR context. For non-pull_request events, provide base-sha and head-sha inputs."

/-- The range selection of src/main.ts run(): a PR context wins
unconditionally; otherwise both explicit inputs must be non-empty
(core.getInput yields the empty string for an absent input, and the
check uses JavaScript truthiness). -/
def determineRange (prContext : Option PRCtx) (inputBase inputHead : String) :
    Except String (String × String) :=
  match prContext with
  | some p => Except.ok (p.baseSha, p.headSha)
  | none =>
    if inputBase = "" ∨ inputHead = "" then Except.error rangeErrorMsg
    else Except.ok (inputBase, inputHead)

/-- The fail-on-score gate of src/main.ts run(): fail when a threshold
is configured and riskScore >= threshold. -/
def gateFails (failOnScore : Option Int) (riskScore : Int) : Bool :=
  match failOnScore with
  | some threshold => decide (threshold ≤ riskScore)
  | none => false

inductive RunEvent where
  | fatalError
  | downloadBaseline
  | analysis
  | uploadArtifacts
  | uploadSarif
  | stepSummary
  | commentAttempt
  | commentSkipped
  | setOutputs
  | thresholdFailed
  | completed
deriving DecidableEq

/-- One run of src/main.ts run(): inputs validity, the PR context and
explicit range inputs, and the success of each fallible stage. -/
structure RunConfig where
  inputsOk : Bool
  prCtx : Option PRCtx
  inputBase : String
  inputHead : String
  baselineRequested : Bool
  analysisOk : Bool
  uploadOk : Bool
  sarifUpload : Bool
  commentEnabled : Bool
  hasToken : Bool
  failOnScore : Option Int
  riskScore : Int

/-- The comment phase of src/main.ts: attempt when a PR context exists,
posting is enabled, the PR is not a fork, and a token is present; the
skip branches log and continue. -/
def commentEvents (c : RunConfig) : List RunEvent :=
  match c.prCtx with
  | some p =>
    if shouldPostComment p.isFork c.commentEnabled then
      if c.hasToken then [RunEvent.commentAttempt] else [RunEvent.commentSkipped]
    else []
  | none => [RunEvent.commentSkipped]

/-- Everything src/main.ts executes after a successful analysis and
artifact upload, up to but excluding the score gate, in program
order: artifact upload, optional SARIF upload, step summary, comment
phase, action outputs. -/
def preTrace (c : RunConfig) : List RunEvent :=
  (if c.baselineRequested then [RunEvent.downloadBaseline] else [])
    ++ [RunEvent.analysis] ++ [RunEvent.uploadArtifacts]
    ++ (if c.sarifUpload then [RunEvent.uploadSarif] else [])
    ++ [RunEvent.stepSummary] ++ commentEvents c ++ [RunEvent.setOutputs]

/-- The event trace of one run of src/main.ts run(): invalid inputs or
an undeterminable range fail before anything is launched; an analysis
or upload failure is caught by the top-level handler; otherwise the
full reporting sequence runs and the score gate is checked last. -/
def runTrace (c : RunConfig) : List RunEvent :=
  if c.inputsOk = false then [RunEvent.fatalError]
  else
    match determineRange c.prCtx c.inputBase c.inputHead with
    | Except.error _ => [RunEvent.fatalError]
    | Except.ok _ =>
      if c.analysisOk = false then
        (if c.baselineRequested then [RunEvent.downloadBaseline] else [])
          ++ [RunEvent.fatalError]
      else if c.uploadOk = false then
        (if c.baselineRequested then [RunEvent.downloadBaseline] else [])
          ++ [RunEvent.analysis] ++ [RunEvent.fatalError]
      else
        preTrace c
          ++ (if gateFails c.failOnScore c.riskScore then [RunEvent.thresholdFailed]
              else [RunEvent.completed])

/-- A run with threshold 70 and computed score 70. -/
def c6Cfg : RunConfig :=
  { inputsOk := true, prCtx := none, inputBase := "b0", inputHead := "h0",
    baselineRequested := false, analysisOk := true, uploadOk := true,
    sarifUpload := false, commentEnabled := true, hasToken := true,
    failOnScore := some 70, riskScore := 70 }

def c7Ctx : PRCtx :=
  { owner := "o", repo := "r", prNumber := 1, baseSha := "b1",
    headSha := "h1", isFork := false }

/-- A full-featured run whose score gate fires. -/
def c7Cfg : RunConfig :=
  { inputsOk := true, prCtx := some c7Ctx, inputBase := "", inputHead := "",
    baselineRequested := true, analysisOk := true, uploadOk := true,
    sarifUpload := true, commentEnabled := true, hasToken := true,
    failOnScore := some 50, riskScore := 80 }

/-- A run without PR context and with an empty base-sha input. -/
def c10Cfg : RunConfig :=
  { inputsOk := true, prCtx := none, inputBase := "", inputHead := "h0",
    baselineRequested := false, analysisOk := true, uploadOk := true,
    sarifUpload := false, commentEnabled := false, hasToken := false,
    failOnScore := none, riskScore := 0 }

/-- C1: For every pair of snapshots (B, C), the delta computation
returns three pairwise-disjoint sets of finding identity keys
(newFindings, resolvedFindings, unchangedFindings) whose union equals
the union of the identity keys of B and of C. -/
theorem c1_delta_partition (B C : DeltaSnapshot) :
    Disjoint (DeltaComparator.compare B C).newFindingIds
      (DeltaComparator.compare B C).resolvedFindingIds ∧
    Disjoint (DeltaComparator.compare B C).newFindingIds
      (DeltaComparator.compare B C).unchangedFindingIds ∧
    Disjoint (DeltaComparator.compare B C).resolvedFindingIds
      (DeltaComparator.compare B C).unchangedFindingIds ∧
    (DeltaComparator.compare B C).newFindingIds ∪
        (DeltaComparator.compare B C).resolvedFindingIds ∪
        (DeltaComparator.compare B C).unchangedFindingIds =
      snapshotKeys B ∪ snapshotKeys C := by
  refine ⟨?_, ?_, ?_, ?_⟩
  · rw [Finset.disjoint_left]
    intro a ha hb
    simp [DeltaComparator.compare] at ha hb
    tauto
  · rw [Finset.disjoint_left]
    intro a ha hb
    simp [DeltaComparator.compare] at ha hb
    tauto
  · rw [Finset.disjoint_left]
    intro a ha hb
    simp [DeltaComparator.compare] at ha hb
    tauto
  · ext a
    simp [DeltaComparator.compare]
    tauto

/-- C5: For every byte string and byte limit, the output-bounding
operation returns the value unchanged with the truncation flag clear
when the byte length is at most the limit, and otherwise returns a
prefix of exactly the limit in bytes with the truncation flag set. -/
theorem c5_output_bound (v : List UInt8) (limit : Nat) :
    (v.length ≤ limit →
      OutputTruncator.bound v limit = { value := v, truncated := false }) ∧
    (limit < v.length →
      (OutputTruncator.bound v limit).truncated = true ∧
      (OutputTruncator.bound v limit).value.length = limit ∧
      (OutputTruncator.bound v limit).value = v.take limit) := by
  constructor
  · intro h
    simp [OutputTruncator.bound, h]
  · intro h
    have hnot : ¬ v.length ≤ limit := Nat.not_le.mpr h
    refine ⟨?_, ?_, ?_⟩ <;>
      simp [OutputTruncator.bound, hnot, List.length_take,
        Nat.min_eq_left (Nat.le_of_lt h)]

/-- Witness for C5: a concrete over-limit value is truncated to exactly
the limit with the flag set. -/
theorem c5_output_bound_witness :
    (2 < ([1, 2, 3] : List UInt8).length) ∧
    ((OutputTruncator.bound [1, 2, 3] 2).truncated = true ∧
      (OutputTruncator.bound [1, 2, 3] 2).value.length = 2 ∧
      (OutputTruncator.bound [1, 2, 3] 2).value = ([1, 2, 3] : List UInt8).take 2) :=
  ⟨by decide, (c5_output_bound [1, 2, 3] 2).2 (by decide)⟩

/-- C9: For every requested version specifier, resolveVersion never
raises and returns a string; on any lookup failure it returns the
requested specifier unchanged. -/
theorem c9_resolve_version_total :
    (∀ (e requestedVersion : String),
        resolveVersion (Except.error e) requestedVersion = requestedVersion) ∧
    (∀ (lookup : Except String String) (requestedVersion : String),
        ∃ s, resolveVersion lookup requestedVersion = s) :=
  ⟨fun _ _ => rfl, fun _ _ => ⟨_, rfl⟩⟩

/-- C3: If any one of the concurrently launched subprocesses exits
non-zero or its stdout fails to parse, runBranchNarrator fails as a
whole: the join succeeds exactly when every required task succeeded, so
no task result is surfaced when another task failed. -/
theorem c3_fail_fast {F R : Type} (o : RunnerOptions) (env : RunnerEnv F R) :
    exceptOk (runBranchNarrator o env) =
      (exceptOk (runFacts env) && exceptOk (runRiskReport env) &&
        exceptOk (runPrBody env) &&
        (!o.sarifUpload || exceptOk (runFactsSarif o env))) := by
  rcases hf : runFacts env with e | f <;>
    rcases hr : runRiskReport env with e2 | r <;>
      rcases hp : runPrBody env with e3 | b <;>
        rcases hsR : runFactsSarif o env with e4 | sp <;>
          by_cases hs : o.sarifUpload <;>
            simp [runBranchNarrator, exceptOk, hf, hr, hp, hs, hsR]

/-- C4 counterexample: with concrete options carrying file globs, size
limits, and redact, the risk-report command receives neither the size
limits nor the file exclude glob, and the pr-body command does not
receive the redact flag — so not every subprocess receives the same
file-filtering and size-limit parameters. -/
theorem c4_counterexample :
    ("--max-file-bytes 7" ∈ factsArgs c4Opts ∧
      "--max-file-bytes 7" ∉ riskReportArgs c4Opts) ∧
    ("--redact" ∈ factsArgs c4Opts ∧ "--redact" ∉ prBodyArgs c4Opts) ∧
    ("--exclude \"dist\"" ∈ factsArgs c4Opts ∧
      "--exclude \"dist\"" ∉ riskReportArgs c4Opts) := by
  decide

/-- C4 (amended): every launched subprocess receives the same commit
range (base and head SHAs).  The facts, SARIF, and pr-body subprocesses
additionally receive the same include/exclude glob and size-limit
parameters, and the redact flag reaches facts, risk-report, and SARIF;
the risk-report subprocess receives no file globs or size limits, and
the pr-body subprocess receives no redact flag. -/
theorem c4_shared_parameters (o : RunnerOptions) (pat qat : String) (n1 n2 n3 : Nat)
    (hx : pat ∈ o.excludeGlobs) (hi : qat ∈ o.includeGlobs)
    (h1 : o.maxFileBytes = some n1) (h2 : o.maxDiffBytes = some n2)
    (h3 : o.maxFindings = some n3) (hr : o.redact = true) :
    (("--base " ++ o.baseSha) ∈ factsArgs o ∧
      ("--base " ++ o.baseSha) ∈ riskReportArgs o ∧
      ("--base " ++ o.baseSha) ∈ prBodyArgs o ∧
      ("--base " ++ o.baseSha) ∈ sarifArgs o) ∧
    (("--head " ++ o.headSha) ∈ factsArgs o ∧
      ("--head " ++ o.headSha) ∈ riskReportArgs o ∧
      ("--head " ++ o.headSha) ∈ prBodyArgs o ∧
      ("--head " ++ o.headSha) ∈ sarifArgs o) ∧
    (("--exclude \"" ++ pat ++ "\"") ∈ factsArgs o ∧
      ("--exclude \"" ++ pat ++ "\"") ∈ prBodyArgs o ∧
      ("--exclude \"" ++ pat ++ "\"") ∈ sarifArgs o) ∧
    (("--include \"" ++ qat ++ "\"") ∈ factsArgs o ∧
      ("--include \"" ++ qat ++ "\"") ∈ prBodyArgs o ∧
      ("--include \"" ++ qat ++ "\"") ∈ sarifArgs o) ∧
    (("--max-file-bytes " ++ toString n1) ∈ factsArgs o ∧
      ("--max-file-bytes " ++ toString n1) ∈ prBodyArgs o ∧
      ("--max-file-bytes " ++ toString n1) ∈ sarifArgs o) ∧
    (("--max-diff-bytes " ++ toString n2) ∈ factsArgs o ∧
      ("--max-diff-bytes " ++ toString n2) ∈ prBodyArgs o ∧
      ("--max-diff-bytes " ++ toString n2) ∈ sarifArgs o) ∧
    (("--max-findings " ++ toString n3) ∈ factsArgs o ∧
      ("--max-findings " ++ toString n3) ∈ prBodyArgs o ∧
      ("--max-findings " ++ toString n3) ∈ sarifArgs o) ∧
    ("--redact" ∈ factsArgs o ∧ "--redact" ∈ riskReportArgs o ∧
      "--redact" ∈ sarifArgs o) := by
  have hmapx : ("--exclude \"" ++ pat ++ "\"") ∈
      o.excludeGlobs.map (fun q => "--exclude \"" ++ q ++ "\"") :=
    List.mem_map.mpr ⟨pat, hx, rfl⟩
  have hmapi : ("--include \"" ++ qat ++ "\"") ∈
      o.includeGlobs.map (fun q => "--include \"" ++ q ++ "\"") :=
    List.mem_map.mpr ⟨qat, hi, rfl⟩
  have hopt1 : ("--max-file-bytes " ++ toString n1) ∈
      optArg (fun n => "--max-file-bytes " ++ toString n) o.maxFileBytes := by
    rw [h1]; exact List.mem_cons_self _ _
  have hopt2 : ("--max-diff-bytes " ++ toString n2) ∈
      optArg (fun n => "--max-diff-bytes " ++ toString n) o.maxDiffBytes := by
    rw [h2]; exact List.mem_cons_self _ _
  have hopt3 : ("--max-findings " ++ toString n3) ∈
      optArg (fun n => "--max-findings " ++ toString n) o.maxFindings := by
    rw [h3]; exact List.mem_cons_self _ _
  have hrd : "--redact" ∈ (if o.redact then (["--redact"] : List String) else []) := by
    simp [hr]
  refine ⟨⟨?_, ?_, ?_, ?_⟩, ⟨?_, ?_, ?_, ?_⟩, ⟨?_, ?_, ?_⟩, ⟨?_, ?_, ?_⟩,
    ⟨?_, ?_, ?_⟩, ⟨?_, ?_, ?_⟩, ⟨?_, ?_, ?_⟩, ⟨?_, ?_, ?_⟩⟩
  · simp [factsArgs]
  · simp [riskReportArgs]
  · simp [prBodyArgs]
  · simp [sarifArgs]
  · simp [factsArgs]
  · simp [riskReportArgs]
  · simp [prBodyArgs]
  · simp [sarifArgs]
  · exact List.mem_append_left _ (List.mem_append_left _ (List.mem_append_left _ (List.mem_append_left _ (List.mem_append_right _ (hmapx)))))
  · exact List.mem_append_left _ (List.mem_append_left _ (List.mem_append_left _ (List.mem_append_left _ (List.mem_append_right _ (hmapx)))))
  · exact List.mem_append_left _ (List.mem_append_left _ (List.mem_append_left _ (List.mem_append_left _ (List.mem_append_right _ (hmapx)))))
  · exact List.mem_append_left _ (List.mem_append_left _ (List.mem_append_left _ (List.mem_append_right _ (hmapi))))
  · exact List.mem_append_left _ (List.mem_append_left _ (List.mem_append_left _ (List.mem_append_right _ (hmapi))))
  · exact List.mem_append_left _ (List.mem_append_left _ (List.mem_append_left _ (List.mem_append_right _ (hmapi))))
  · exact List.mem_append_left _ (List.mem_append_left _ (List.mem_append_right _ (hopt1)))
  · exact List.mem_append_left _ (List.mem_append_left _ (List.mem_append_right _ (hopt1)))
  · exact List.mem_append_left _ (List.mem_append_left _ (List.mem_append_right _ (hopt1)))
  · exact List.mem_append_left _ (List.mem_append_right _ (hopt2))
  · exact List.mem_append_left _ (List.mem_append_right _ (hopt2))
  · exact List.mem_append_left _ (List.mem_append_right _ (hopt2))
  · exact List.mem_append_right _ hopt3
  · exact List.mem_append_right _ hopt3
  · exact List.mem_append_right _ hopt3
  · exact List.mem_append_left _ (List.mem_append_left _ (List.mem_append_left _ (List.mem_append_left _ (List.mem_append_left _ (List.mem_append_left _ (List.mem_append_right _ (hrd)))))))
  · exact List.mem_append_left _ (List.mem_append_left _ (List.mem_append_left _ (List.mem_append_left _ (List.mem_append_left _ (List.mem_append_right _ (hrd))))))
  · exact List.mem_append_left _ (List.mem_append_left _ (List.mem_append_left _ (List.mem_append_left _ (List.mem_append_left _ (List.mem_append_right _ (hrd))))))

/-- Witness for C4 (amended): concrete options exercising every
hypothesis of the shared-parameter theorem; all four commands carry the
same base SHA. -/
theorem c4_shared_parameters_witness :
    ("dist" ∈ c4Opts.excludeGlobs ∧ "src" ∈ c4Opts.includeGlobs ∧
      c4Opts.maxFileBytes = some 7 ∧ c4Opts.maxDiffBytes = some 8 ∧
      c4Opts.maxFindings = some 9 ∧ c4Opts.redact = true) ∧
    (("--base " ++ c4Opts.baseSha) ∈ factsArgs c4Opts ∧
      ("--base " ++ c4Opts.baseSha) ∈ riskReportArgs c4Opts ∧
      ("--base " ++ c4Opts.baseSha) ∈ prBodyArgs c4Opts ∧
      ("--base " ++ c4Opts.baseSha) ∈ sarifArgs c4Opts) :=
  ⟨⟨by decide, by decide, by decide, by decide, by decide, by decide⟩,
    (c4_shared_parameters c4Opts ("dist") ("src") 7 8 9 (by decide) (by decide)
      (by decide) (by decide) (by decide) (by decide)).1⟩

/-- Membership in a conditional singleton forces equality. -/
theorem mem_iteList {α : Type} {x e : α} {cond : Prop} [Decidable cond]
    (h : x ∈ if cond then [e] else ([] : List α)) : x = e := by
  by_cases hc : cond
  · rw [if_pos hc] at h
    simpa using h
  · rw [if_neg hc] at h
    simp at h

/-- The score gate event never occurs among the reporting events. -/
theorem thresholdFailed_not_mem_preTrace (c : RunConfig) :
    RunEvent.thresholdFailed ∉ preTrace c := by
  intro h
  unfold preTrace commentEvents at h
  cases hpc : c.prCtx <;> rw [hpc] at h <;> split_ifs at h <;> simp_all

/-- The completion event never occurs among the reporting events. -/
theorem completed_not_mem_preTrace (c : RunConfig) :
    RunEvent.completed ∉ preTrace c := by
  intro h
  unfold preTrace commentEvents at h
  cases hpc : c.prCtx <;> rw [hpc] at h <;> split_ifs at h <;> simp_all

/-- C6: On a run that completes its reporting, the run is marked failed
exactly when the computed risk score meets or exceeds the configured
threshold (the boundary is inclusive). -/
theorem c6_threshold_gate (c : RunConfig) (t : Int)
    (hin : c.inputsOk = true)
    (hrg : exceptOk (determineRange c.prCtx c.inputBase c.inputHead) = true)
    (han : c.analysisOk = true) (hup : c.uploadOk = true)
    (hth : c.failOnScore = some t) :
    (RunEvent.thresholdFailed ∈ runTrace c ↔ t ≤ c.riskScore) ∧
    (RunEvent.completed ∈ runTrace c ↔ c.riskScore < t) := by
  obtain ⟨v, hv⟩ : ∃ v, determineRange c.prCtx c.inputBase c.inputHead = Except.ok v := by
    cases hdr : determineRange c.prCtx c.inputBase c.inputHead with
    | error e =>
      rw [hdr] at hrg
      simp [exceptOk] at hrg
    | ok v => exact ⟨v, rfl⟩
  have htr : runTrace c = preTrace c ++
      (if gateFails c.failOnScore c.riskScore then [RunEvent.thresholdFailed]
        else [RunEvent.completed]) := by
    simp [runTrace, hin, hv, han, hup]
  by_cases hsc : t ≤ c.riskScore
  · have hg : gateFails c.failOnScore c.riskScore = true := by
      simp [gateFails, hth, hsc]
    rw [htr, hg]
    constructor
    · constructor
      · intro _
        exact hsc
      · intro _
        exact List.mem_append_right _ (by simp)
    · constructor
      · intro hmem
        rcases List.mem_append.mp hmem with h1 | h2
        · exact absurd h1 (completed_not_mem_preTrace c)
        · simp at h2
      · intro hlt
        exact absurd hsc (not_le.mpr hlt)
  · have hg : gateFails c.failOnScore c.riskScore = false := by
      simp [gateFails, hth, hsc]
    rw [htr, hg]
    constructor
    · constructor
      · intro hmem
        rcases List.mem_append.mp hmem with h1 | h2
        · exact absurd h1 (thresholdFailed_not_mem_preTrace c)
        · simp at h2
      · intro hle
        exact absurd hle hsc
    · constructor
      · intro _
        exact not_le.mp hsc
      · intro _
        exact List.mem_append_right _ (by simp)

/-- Witness for C6: threshold 70 with computed score 70 marks the run
failed — the boundary is inclusive. -/
theorem c6_threshold_gate_witness :
    (c6Cfg.inputsOk = true ∧
      exceptOk (determineRange c6Cfg.prCtx c6Cfg.inputBase c6Cfg.inputHead) = true ∧
      c6Cfg.analysisOk = true ∧ c6Cfg.uploadOk = true ∧
      c6Cfg.failOnScore = some 70 ∧ c6Cfg.riskScore = 70) ∧
    RunEvent.thresholdFailed ∈ runTrace c6Cfg :=
  ⟨⟨rfl, by decide, rfl, rfl, rfl, rfl⟩,
    ((c6_threshold_gate c6Cfg 70 rfl (by decide) rfl rfl rfl).1).mpr (by decide)⟩

/-- C7: whenever the score-threshold gate fires, it is the last event of
the run: artifact upload, the step summary, the comment phase, and the
action outputs have all already executed, so a threshold failure never
suppresses any of them. -/
theorem c7_gate_after_reporting (c : RunConfig)
    (hmem : RunEvent.thresholdFailed ∈ runTrace c) :
    ∃ pre, runTrace c = pre ++ [RunEvent.thresholdFailed] ∧
      RunEvent.uploadArtifacts ∈ pre ∧ RunEvent.stepSummary ∈ pre ∧
      RunEvent.setOutputs ∈ pre ∧
      (∀ p, c.prCtx = some p →
        shouldPostComment p.isFork c.commentEnabled = true →
        c.hasToken = true → RunEvent.commentAttempt ∈ pre) := by
  by_cases hin : c.inputsOk = false
  · unfold runTrace at hmem
    rw [if_pos hin] at hmem
    simp at hmem
  · unfold runTrace at hmem
    rw [if_neg hin] at hmem
    cases hdr : determineRange c.prCtx c.inputBase c.inputHead with
    | error e =>
      rw [hdr] at hmem
      simp at hmem
    | ok v =>
      rw [hdr] at hmem
      by_cases han : c.analysisOk = false
      · rw [if_pos han] at hmem
        rcases List.mem_append.mp hmem with h1 | h2
        · exact absurd (mem_iteList h1) (by decide)
        · simp at h2
      · rw [if_neg han] at hmem
        by_cases hup : c.uploadOk = false
        · rw [if_pos hup] at hmem
          rcases List.mem_append.mp hmem with h1 | h2
          · rcases List.mem_append.mp h1 with h3 | h4
            · exact absurd (mem_iteList h3) (by decide)
            · simp at h4
          · simp at h2
        · rw [if_neg hup] at hmem
          by_cases hg : gateFails c.failOnScore c.riskScore = true
          · refine ⟨preTrace c, ?_, ?_, ?_, ?_, ?_⟩
            · unfold runTrace
              rw [if_neg hin, hdr, if_neg han, if_neg hup, if_pos hg]
            · exact List.mem_append_left _ (List.mem_append_left _
                (List.mem_append_left _ (List.mem_append_left _
                  (List.mem_append_right _ (by simp)))))
            · exact List.mem_append_left _ (List.mem_append_left _
                (List.mem_append_right _ (by simp)))
            · exact List.mem_append_right _ (by simp)
            · intro p hp hsp htk
              have hce : RunEvent.commentAttempt ∈ commentEvents c := by
                unfold commentEvents
                rw [hp]
                simp [hsp, htk]
              exact List.mem_append_left _ (List.mem_append_right _ hce)
          · have hgf : gateFails c.failOnScore c.riskScore = false := by
              revert hg
              cases gateFails c.failOnScore c.riskScore <;> simp
            rw [hgf] at hmem
            simp only [if_neg (by simp : ¬(false = true))] at hmem
            rcases List.mem_append.mp hmem with h1 | h2
            · exact absurd h1 (thresholdFailed_not_mem_preTrace c)
            · simp at h2

/-- Witness for C7: a gate-firing run on a PR with SARIF and comment
posting enabled; the gate event is final and preceded by all reporting
events. -/
theorem c7_gate_after_reporting_witness :
    RunEvent.thresholdFailed ∈ runTrace c7Cfg ∧
    (∃ pre, runTrace c7Cfg = pre ++ [RunEvent.thresholdFailed] ∧
      RunEvent.uploadArtifacts ∈ pre ∧ RunEvent.stepSummary ∈ pre ∧
      RunEvent.setOutputs ∈ pre ∧
      (∀ p, c7Cfg.prCtx = some p →
        shouldPostComment p.isFork c7Cfg.commentEnabled = true →
        c7Cfg.hasToken = true → RunEvent.commentAttempt ∈ pre)) :=
  ⟨by decide, c7_gate_after_reporting c7Cfg (by decide)⟩

/-- C8: the baseline fetch returns none — never a partial object and
never a raised error — whenever listing fails, either constituent
artifact is missing, a download fails, or the downloaded files are
absent; a some result certifies both artifacts were present; and a none
result leaves the baseline path unset so the run proceeds without delta
mode instead of aborting. -/
theorem c8_baseline_degrades (env : ArtifactEnv) (name : String) :
    (env.listOk = false → downloadBaselineArtifact env name = none) ∧
    ((name ++ "-facts") ∉ env.available ∨ (name ++ "-risk-report") ∉ env.available →
      downloadBaselineArtifact env name = none) ∧
    (env.downloadOk (name ++ "-facts") = false →
      downloadBaselineArtifact env name = none) ∧
    (env.downloadOk (name ++ "-risk-report") = false →
      downloadBaselineArtifact env name = none) ∧
    (env.filesOk = false → downloadBaselineArtifact env name = none) ∧
    (∀ r, downloadBaselineArtifact env name = some r →
      (name ++ "-facts") ∈ env.available ∧ (name ++ "-risk-report") ∈ env.available ∧
      r = { factsPath := baselineFactsPath, riskReportPath := baselineRiskPath }) ∧
    (downloadBaselineArtifact env name = none →
      resolveBaselinePath (some name) env = none) := by
  refine ⟨?_, ?_, ?_, ?_, ?_, ?_, ?_⟩
  · intro h
    unfold downloadBaselineArtifact
    split_ifs <;> simp_all
  · intro h
    unfold downloadBaselineArtifact
    split_ifs <;> simp_all
  · intro h
    unfold downloadBaselineArtifact
    split_ifs <;> simp_all
  · intro h
    unfold downloadBaselineArtifact
    split_ifs <;> simp_all
  · intro h
    unfold downloadBaselineArtifact
    split_ifs <;> simp_all
  · intro r hr
    unfold downloadBaselineArtifact at hr
    split_ifs at hr with h1 h2 h3 h4 h5 <;> simp_all
  · intro h
    simp [resolveBaselinePath, h]

/-- Witness for C8: the facts artifact is absent, so the fetch yields
none even though the risk-report artifact exists. -/
theorem c8_baseline_degrades_witness :
    ((c8Name ++ "-facts") ∉ c8Env.available) ∧
    downloadBaselineArtifact c8Env c8Name = none :=
  ⟨by decide,
    (c8_baseline_degrades c8Env c8Name).2.1 (Or.inl (by decide))⟩

/-- C10: when a pull_request context is available the analyzed range is
the PR payload base/head pair and the explicit base-sha/head-sha inputs
are ignored; without a PR context the explicit inputs are used, and if
either is missing the run fails before any analysis is launched. -/
theorem c10_range_selection :
    (∀ (p : PRCtx) (b h : String),
        determineRange (some p) b h = Except.ok (p.baseSha, p.headSha)) ∧
    (∀ (payload : PRPayload) (owner repo b h : String),
        determineRange (getPRContext pullRequestEvent (some payload) owner repo) b h =
          Except.ok (payload.baseSha, payload.headSha)) ∧
    (∀ b h : String, b ≠ "" → h ≠ "" →
        determineRange none b h = Except.ok (b, h)) ∧
    (∀ b h : String, b = "" ∨ h = "" →
        determineRange none b h = Except.error rangeErrorMsg) ∧
    (∀ c : RunConfig, c.prCtx = none → (c.inputBase = "" ∨ c.inputHead = "") →
        RunEvent.analysis ∉ runTrace c) := by
  refine ⟨fun p b h => rfl, ?_, ?_, ?_, ?_⟩
  · intro payload owner repo b h
    unfold getPRContext
    rw [if_neg (by simp)]
    rfl
  · intro b h hb hh
    unfold determineRange
    rw [if_neg (by simp [hb, hh])]
  · intro b h hor
    unfold determineRange
    rw [if_pos hor]
  · intro c hpc hor hmem
    unfold runTrace at hmem
    by_cases hin : c.inputsOk = false
    · rw [if_pos hin] at hmem
      simp at hmem
    · rw [if_neg hin] at hmem
      have hde : determineRange c.prCtx c.inputBase c.inputHead =
          Except.error rangeErrorMsg := by
        rw [hpc]
        unfold determineRange
        rw [if_pos hor]
      rw [hde] at hmem
      simp at hmem

/-- Witness for C10: a run without PR context and with an empty
base-sha input never reaches the analysis stage. -/
theorem c10_range_selection_witness :
    (c10Cfg.prCtx = none ∧ (c10Cfg.inputBase = "" ∨ c10Cfg.inputHead = "")) ∧
    RunEvent.analysis ∉ runTrace c10Cfg :=
  ⟨⟨rfl, Or.inl rfl⟩,
    c10_range_selection.2.2.2.2 c10Cfg rfl (Or.inl rfl)⟩
